import Mathlib

/-!
Verification of the free-form element layout and manipulation engine of the
SlidesAi presentation editor.

The embedding follows the TypeScript source:
* `src/types.ts` (and the extended variant with chart/icon elements): the
  element and slide data model;
* `src/components/ElementWrapper.tsx`: the pointer gesture engine
  (`handleMouseMove`, `handleMouseDown`, `handleResizeHandleMouseDown`,
  `handleMouseUp`);
* the App component (`src/components/AddElementMenu.tsx` bundle):
  `handleElementUpdate`, `handleAddElement` and the insertion position rule;
* `src/services/geminiService.ts`: the merge step of `regenerateSlideLayout`.

All numeric geometry values (JS numbers) are modelled as rationals `ℚ`.
-/

namespace SlidesAi

/-- `src/types.ts`: a text element. -/
structure TextElement where
  id : String
  text : String
  x : ℚ
  y : ℚ
  w : ℚ
  h : ℚ
  tailwindClasses : String
deriving DecidableEq, Repr

/-- `src/types.ts`: an image element. -/
structure ImageElement where
  id : String
  x : ℚ
  y : ℚ
  w : ℚ
  h : ℚ
  base64 : String
deriving DecidableEq, Repr

/-- `src/types.ts`: the chart type discriminant `'bar' | 'line' | 'pie'`. -/
inductive ChartType where
  | bar
  | line
  | pie
deriving DecidableEq, Repr

/-- `src/types.ts`: one `{ label, value }` chart datum. -/
structure ChartDatum where
  label : String
  value : ℚ
deriving DecidableEq, Repr

/-- `src/types.ts`: the optional chart styling options. -/
structure ChartOptions where
  colors : Option (List String)
deriving DecidableEq, Repr

/-- `src/types.ts`: a chart element. -/
structure ChartElement where
  id : String
  x : ℚ
  y : ℚ
  w : ℚ
  h : ℚ
  chartType : ChartType
  data : List ChartDatum
  options : Option ChartOptions
deriving DecidableEq, Repr

/-- `src/types.ts`: an icon element. -/
structure IconElement where
  id : String
  x : ℚ
  y : ℚ
  w : ℚ
  h : ℚ
  svg : String
  color : String
deriving DecidableEq, Repr

/-- `src/types.ts`: `SlideElement = TextElement | ImageElement | ChartElement | IconElement`. -/
inductive SlideElement where
  | text (t : TextElement)
  | image (i : ImageElement)
  | chart (c : ChartElement)
  | icon (ic : IconElement)
deriving DecidableEq, Repr

/-- The `id` field shared by every element variant. -/
def SlideElement.id : SlideElement → String
  | .text t => t.id
  | .image i => i.id
  | .chart c => c.id
  | .icon ic => ic.id

/-- The `x` field shared by every element variant. -/
def SlideElement.x : SlideElement → ℚ
  | .text t => t.x
  | .image i => i.x
  | .chart c => c.x
  | .icon ic => ic.x

/-- The `y` field shared by every element variant. -/
def SlideElement.y : SlideElement → ℚ
  | .text t => t.y
  | .image i => i.y
  | .chart c => c.y
  | .icon ic => ic.y

/-- The `w` field shared by every element variant. -/
def SlideElement.w : SlideElement → ℚ
  | .text t => t.w
  | .image i => i.w
  | .chart c => c.w
  | .icon ic => ic.w

/-- The `h` field shared by every element variant. -/
def SlideElement.h : SlideElement → ℚ
  | .text t => t.h
  | .image i => i.h
  | .chart c => c.h
  | .icon ic => ic.h

/-- The geometry quadruple `(x, y, w, h)` of an element. -/
def SlideElement.geom (el : SlideElement) : ℚ × ℚ × ℚ × ℚ :=
  (el.x, el.y, el.w, el.h)

/-- The spread `{ ...element, x: newX, y: newY, w: newW, h: newH }` used by
`handleMouseMove` in `src/components/ElementWrapper.tsx`: every non-geometry
field of the element is kept, the four geometry fields are replaced. -/
def SlideElement.setGeometry : SlideElement → ℚ → ℚ → ℚ → ℚ → SlideElement
  | .text t, nx, ny, nw, nh => .text { t with x := nx, y := ny, w := nw, h := nh }
  | .image i, nx, ny, nw, nh => .image { i with x := nx, y := ny, w := nw, h := nh }
  | .chart c, nx, ny, nw, nh => .chart { c with x := nx, y := ny, w := nw, h := nh }
  | .icon ic, nx, ny, nw, nh => .icon { ic with x := nx, y := ny, w := nw, h := nh }

/-- The non-geometry payload of an element: everything except `x, y, w, h`. -/
inductive ElementContent where
  | text (id text tailwindClasses : String)
  | image (id base64 : String)
  | chart (id : String) (chartType : ChartType) (data : List ChartDatum)
      (options : Option ChartOptions)
  | icon (id svg color : String)
deriving DecidableEq, Repr

/-- Projection of an element onto its non-geometry payload. -/
def SlideElement.content : SlideElement → ElementContent
  | .text t => .text t.id t.text t.tailwindClasses
  | .image i => .image i.id i.base64
  | .chart c => .chart c.id c.chartType c.data c.options
  | .icon ic => .icon ic.id ic.svg ic.color

/-- The canvas's pixel bounding box (`getBoundingClientRect()` width/height). -/
structure Rect where
  width : ℚ
  height : ℚ
deriving DecidableEq, Repr

/-- `startPos.current` in `ElementWrapper.tsx`: the gesture-start snapshot of
the element geometry and the pointer pixel position. -/
structure StartPos where
  x : ℚ
  y : ℚ
  w : ℚ
  h : ℚ
  mouseX : ℚ
  mouseY : ℚ
deriving DecidableEq, Repr

/-- One of the eight resize handle directions of `ElementWrapper.tsx`.
The source stores the direction as one of the strings `'top-left'`, `'top'`,
`'top-right'`, `'left'`, `'right'`, `'bottom-left'`, `'bottom'`,
`'bottom-right'`. -/
inductive Direction where
  | topLeft
  | top
  | topRight
  | left
  | right
  | bottomLeft
  | bottom
  | bottomRight
deriving DecidableEq, Repr

/-- `resizeDirection.current.includes('right')`: the direction strings that
contain the substring `"right"` are `'right'`, `'top-right'`, `'bottom-right'`. -/
def Direction.includesRight : Direction → Bool
  | .topRight | .right | .bottomRight => true
  | _ => false

/-- `resizeDirection.current.includes('left')`: the direction strings that
contain the substring `"left"` are `'left'`, `'top-left'`, `'bottom-left'`. -/
def Direction.includesLeft : Direction → Bool
  | .topLeft | .left | .bottomLeft => true
  | _ => false

/-- `resizeDirection.current.includes('top')`: the direction strings that
contain the substring `"top"` are `'top'`, `'top-left'`, `'top-right'`. -/
def Direction.includesTop : Direction → Bool
  | .topLeft | .top | .topRight => true
  | _ => false

/-- `resizeDirection.current.includes('bottom')`: the direction strings that
contain the substring `"bottom"` are `'bottom'`, `'bottom-left'`,
`'bottom-right'`. -/
def Direction.includesBottom : Direction → Bool
  | .bottomLeft | .bottom | .bottomRight => true
  | _ => false

/-- The mutable refs of `ElementWrapper.tsx` that make up the gesture state:
`isDragging.current`, `isResizing.current`, `resizeDirection.current`,
`startPos.current`. -/
structure GestureState where
  isDragging : Bool
  isResizing : Bool
  resizeDirection : Direction
  startPos : StartPos
deriving DecidableEq, Repr

/-- `handleMouseMove` in `src/components/ElementWrapper.tsx` (lines 21-53).
Returns `some updatedElement` when the handler calls `onUpdate`, and `none`
when it returns early (no active gesture, or the parent rect cannot be
measured). `parentRect = none` models
`ref.current?.parentElement?.getBoundingClientRect()` being unavailable. -/
def handleMouseMove (st : GestureState) (parentRect : Option Rect)
    (clientX clientY : ℚ) (element : SlideElement) : Option SlideElement :=
  if !st.isDragging && !st.isResizing then none
  else
    match parentRect with
    | none => none
    | some rect =>
      let dx := ((clientX - st.startPos.mouseX) / rect.width) * 100
      let dy := ((clientY - st.startPos.mouseY) / rect.height) * 100
      if st.isDragging then
        some (element.setGeometry (st.startPos.x + dx) (st.startPos.y + dy)
          st.startPos.w st.startPos.h)
      else
        let newW1 := if st.resizeDirection.includesRight then st.startPos.w + dx
          else st.startPos.w
        let newW := if st.resizeDirection.includesLeft then st.startPos.w - dx
          else newW1
        let newX := if st.resizeDirection.includesLeft then st.startPos.x + dx
          else st.startPos.x
        let newH1 := if st.resizeDirection.includesBottom then st.startPos.h + dy
          else st.startPos.h
        let newH := if st.resizeDirection.includesTop then st.startPos.h - dy
          else newH1
        let newY := if st.resizeDirection.includesTop then st.startPos.y + dy
          else st.startPos.y
        some (element.setGeometry newX newY newW newH)

/-- `handleMouseDown` in `src/components/ElementWrapper.tsx` (lines 73-78):
the drag starts only when editing is enabled and the element is already
selected; on start it records the geometry snapshot and the pointer position. -/
def handleMouseDown (isEditingEnabled isSelected : Bool) (element : SlideElement)
    (clientX clientY : ℚ) (st : GestureState) : GestureState :=
  if !isEditingEnabled || !isSelected then st
  else
    { st with
      isDragging := true,
      startPos :=
        { x := element.x, y := element.y, w := element.w, h := element.h,
          mouseX := clientX, mouseY := clientY } }

/-- `handleResizeHandleMouseDown` in `src/components/ElementWrapper.tsx`
(lines 80-86). -/
def handleResizeHandleMouseDown (isEditingEnabled : Bool) (direction : Direction)
    (element : SlideElement) (clientX clientY : ℚ) (st : GestureState) : GestureState :=
  if !isEditingEnabled then st
  else
    { st with
      isResizing := true,
      resizeDirection := direction,
      startPos :=
        { x := element.x, y := element.y, w := element.w, h := element.h,
          mouseX := clientX, mouseY := clientY } }

/-- `handleMouseUp` in `src/components/ElementWrapper.tsx` (lines 55-60):
clears both gesture flags. -/
def handleMouseUp (st : GestureState) : GestureState :=
  { st with isDragging := false, isResizing := false }

/-- The effect of a sequence of `mousemove` events during one gesture: each
event recomputes the element from the (fixed) gesture state and replaces the
stored element when an update is issued. -/
def applyMoves (st : GestureState) (parentRect : Option Rect)
    (clients : List (ℚ × ℚ)) (element : SlideElement) : SlideElement :=
  clients.foldl
    (fun el c => (handleMouseMove st parentRect c.1 c.2 el).getD el) element

/-- The absolute pointer positions generated by a list of per-event pixel
deltas, starting from the pointer position `(mx, my)`. -/
def clientsOfDeltas (mx my : ℚ) : List (ℚ × ℚ) → List (ℚ × ℚ)
  | [] => []
  | d :: ds => (mx + d.1, my + d.2) :: clientsOfDeltas (mx + d.1) (my + d.2) ds

/-- A slide as manipulated by the App component's element-update and
element-append code: that code treats the four element arrays uniformly as
untyped arrays (`any[]`), so all four lists hold `SlideElement`s here.  The
three optional arrays of `src/types.ts` stay optional. -/
structure DynSlide where
  id : String
  slideType : String
  textElements : List SlideElement
  imageElements : Option (List SlideElement)
  chartElements : Option (List SlideElement)
  iconElements : Option (List SlideElement)
  speakerNotes : Option String
deriving DecidableEq, Repr

/-- The inner `update` closure of `handleElementUpdate` in the App component:
`elements?.map(el => el.id === updatedElement.id ? updatedElement : el)`. -/
def updateById (updatedElement : SlideElement) (elements : List SlideElement) :
    List SlideElement :=
  elements.map fun el => if el.id = updatedElement.id then updatedElement else el

/-- `handleElementUpdate` in the App component (AddElementMenu.tsx bundle,
lines 628-643): replaces the id-matching element in every element list of the
active slide, leaving every other slide untouched. -/
def handleElementUpdate (slides : List DynSlide) (activeSlideIndex : Nat)
    (updatedElement : SlideElement) : List DynSlide :=
  slides.enum.map fun p =>
    if p.1 ≠ activeSlideIndex then p.2
    else
      { p.2 with
        textElements := updateById updatedElement p.2.textElements,
        imageElements := (p.2.imageElements).map (updateById updatedElement),
        chartElements := (p.2.chartElements).map (updateById updatedElement),
        iconElements := (p.2.iconElements).map (updateById updatedElement) }

/-- The new-element kind chosen in the insertion affordance:
`'text' | 'image' | 'icon'`. -/
inductive ElementKind where
  | text
  | image
  | icon
deriving DecidableEq, Repr

/-- The string interpolated for an element kind (`${type}` in the source). -/
def ElementKind.str : ElementKind → String
  | .text => "text"
  | .image => "image"
  | .icon => "icon"

/-- The `generationPrompt` state of the App component:
`{ visible, x, y, type }`. -/
structure GenerationPrompt where
  visible : Bool
  x : ℚ
  y : ℚ
  type : Option ElementKind
deriving DecidableEq, Repr

/-- The payload returned by the external content-generation service:
`generateTextElement` returns `{ text, tailwindClasses }`,
`generateImageElement` returns `{ base64 }`, `generateIconElement` returns
`{ svg }`. -/
inductive GenPayload where
  | text (text tailwindClasses : String)
  | image (base64 : String)
  | icon (svg : String)
deriving DecidableEq, Repr

/-- The pieces of App component state read or written by `handleAddElement`. -/
structure AddElementState where
  slides : List DynSlide
  error : Option String
  isLoading : Bool
  loadingMessage : String
  generationPrompt : GenerationPrompt
deriving DecidableEq, Repr

/-- `const position = { x: Math.max(0, x - 10), y: Math.max(0, y - 5) }`
(`handleAddElement`, line 670): the inserted element's top-left. -/
def insertPosition (x y : ℚ) : ℚ × ℚ :=
  (max 0 (x - 10), max 0 (y - 5))

/-- Construction of the new element in `handleAddElement` (lines 672-681):
kind-dependent id prefix, default size, and the generated payload.  In the
source the payload shape always matches the chosen kind because the service
called is selected by the kind; a mismatched pair leaves `newElement` unused
(`none`). -/
def mkNewElement (ty : ElementKind) (payload : GenPayload) (posX posY : ℚ)
    (now : Nat) : Option SlideElement :=
  match ty, payload with
  | .text, .text t tc =>
      some (.text
        { id := "text_" ++ toString now, text := t, tailwindClasses := tc,
          x := posX, y := posY, w := 30, h := 10 })
  | .image, .image b64 =>
      some (.image
        { id := "image_" ++ toString now, base64 := b64,
          x := posX, y := posY, w := 25, h := 30 })
  | .icon, .icon s =>
      some (.icon
        { id := "icon_" ++ toString now, svg := s, color := "#FFFFFF",
          x := posX, y := posY, w := 8, h := 8 })
  | _, _ => none

/-- The append dispatch of `handleAddElement` (lines 685-691): the element is
appended to the list matching its id's kind prefix
(`el.id.startsWith('text')` and so on). -/
def appendElementToSlide (el : SlideElement) (slide : DynSlide) : DynSlide :=
  if el.id.startsWith "text" then
    { slide with textElements := slide.textElements ++ [el] }
  else if el.id.startsWith "image" then
    { slide with imageElements := some ((slide.imageElements.getD []) ++ [el]) }
  else if el.id.startsWith "icon" then
    { slide with iconElements := some ((slide.iconElements.getD []) ++ [el]) }
  else slide

/-- The `setSlides` call of `handleAddElement`: appends the new element to the
active slide only. -/
def appendToActive (slides : List DynSlide) (activeSlideIndex : Nat)
    (el : SlideElement) : List DynSlide :=
  slides.enum.map fun p =>
    if p.1 ≠ activeSlideIndex then p.2 else appendElementToSlide el p.2

/-- `handleAddElement` in the App component (lines 660-700).  The external
generation call is modelled by its outcome `genResult`: `.ok payload` when the
awaited service call returns, `.error e` when it throws.  `now` is the
`Date.now()` timestamp used to mint the element id.  The function returns the
state after the `finally` block ran. -/
def handleAddElement (st : AddElementState) (genResult : Except String GenPayload)
    (now : Nat) (activeSlideIndex : Nat) : AddElementState :=
  match st.generationPrompt.type with
  | none => st
  | some ty =>
    let hiddenPrompt : GenerationPrompt :=
      { visible := false, x := 0, y := 0, type := none }
    let position := insertPosition st.generationPrompt.x st.generationPrompt.y
    match genResult with
    | .error _ =>
        { st with
          generationPrompt := hiddenPrompt,
          error := some ("Could not generate the " ++ ty.str ++ ". Please try again."),
          isLoading := false,
          loadingMessage := "" }
    | .ok payload =>
        match mkNewElement ty payload position.1 position.2 now with
        | none =>
            { st with
              generationPrompt := hiddenPrompt,
              isLoading := false,
              loadingMessage := "" }
        | some el =>
            { st with
              generationPrompt := hiddenPrompt,
              slides := appendToActive st.slides activeSlideIndex el,
              isLoading := false,
              loadingMessage := "" }

/-- JavaScript `s || fallback` on strings: the empty string is falsy. -/
def jsOrString (s fallback : String) : String :=
  if s = "" then fallback else s

/-- `src/types.ts`: `SlideData`, with the typed element lists used by
`regenerateSlideLayout` in `src/services/geminiService.ts`. -/
structure SlideData where
  id : String
  slideType : String
  textElements : List TextElement
  imageElements : Option (List ImageElement)
  chartElements : Option (List ChartElement)
  iconElements : Option (List IconElement)
  speakerNotes : Option String
deriving DecidableEq, Repr

/-- One text entry of the layout-regeneration response, per the
`layoutOnlySchema` of `regenerateSlideLayout`: id, geometry and styling
tokens, no content. -/
structure TextLayoutResponse where
  id : String
  x : ℚ
  y : ℚ
  w : ℚ
  h : ℚ
  tailwindClasses : String
deriving DecidableEq, Repr

/-- One image/chart/icon entry of the layout-regeneration response: id and
geometry only. -/
structure GeomResponse where
  id : String
  x : ℚ
  y : ℚ
  w : ℚ
  h : ℚ
deriving DecidableEq, Repr

/-- The parsed layout-regeneration response (`newLayoutData`), per the
`layoutOnlySchema`: only `slideType` and `textElements` are required. -/
structure LayoutResponse where
  slideType : String
  textElements : List TextLayoutResponse
  imageElements : Option (List GeomResponse)
  chartElements : Option (List GeomResponse)
  iconElements : Option (List GeomResponse)
deriving DecidableEq, Repr

/-- `regenerateSlideLayout` text merge:
`{ ...originalEl, ...newEl, text: originalEl?.text || '' }` where
`originalEl = existingSlide.textElements.find(e => e.id === newEl.id)`.
The response entry supplies id, geometry and `tailwindClasses`; only `text`
survives from the original (or is `''` when no id matches). -/
def mergeTextElement (existing : List TextElement) (newEl : TextLayoutResponse) :
    TextElement :=
  match existing.find? (fun e => e.id = newEl.id) with
  | some originalEl =>
      { id := newEl.id, text := jsOrString originalEl.text "",
        x := newEl.x, y := newEl.y, w := newEl.w, h := newEl.h,
        tailwindClasses := newEl.tailwindClasses }
  | none =>
      { id := newEl.id, text := "",
        x := newEl.x, y := newEl.y, w := newEl.w, h := newEl.h,
        tailwindClasses := newEl.tailwindClasses }

/-- `regenerateSlideLayout` image merge:
`{ ...originalImgEl, ...newImgEl, base64: originalImgEl?.base64 || '' }`. -/
def mergeImageElement (existing : List ImageElement) (newEl : GeomResponse) :
    ImageElement :=
  match existing.find? (fun e => e.id = newEl.id) with
  | some originalEl =>
      { id := newEl.id, x := newEl.x, y := newEl.y, w := newEl.w, h := newEl.h,
        base64 := jsOrString originalEl.base64 "" }
  | none =>
      { id := newEl.id, x := newEl.x, y := newEl.y, w := newEl.w, h := newEl.h,
        base64 := "" }

/-- `regenerateSlideLayout` chart merge: `{ ...originalChartEl, ...newChartEl }`.
When no original chart matches the response id, the source produces an object
missing `chartType`/`data` (they are `undefined`); that unreachable-by-contract
case is modelled with inert defaults. -/
def mergeChartElement (existing : List ChartElement) (newEl : GeomResponse) :
    ChartElement :=
  match existing.find? (fun e => e.id = newEl.id) with
  | some originalEl =>
      { id := newEl.id, x := newEl.x, y := newEl.y, w := newEl.w, h := newEl.h,
        chartType := originalEl.chartType, data := originalEl.data,
        options := originalEl.options }
  | none =>
      { id := newEl.id, x := newEl.x, y := newEl.y, w := newEl.w, h := newEl.h,
        chartType := ChartType.bar, data := [], options := none }

/-- `regenerateSlideLayout` icon merge: `{ ...originalIconEl, ...newIconEl }`.
As with charts, a response id with no original icon yields `undefined` payload
fields in the source, modelled with inert defaults. -/
def mergeIconElement (existing : List IconElement) (newEl : GeomResponse) :
    IconElement :=
  match existing.find? (fun e => e.id = newEl.id) with
  | some originalEl =>
      { id := newEl.id, x := newEl.x, y := newEl.y, w := newEl.w, h := newEl.h,
        svg := originalEl.svg, color := originalEl.color }
  | none =>
      { id := newEl.id, x := newEl.x, y := newEl.y, w := newEl.w, h := newEl.h,
        svg := "", color := "" }

/-- The merge step of `regenerateSlideLayout` in `src/services/geminiService.ts`
(lines 384-421): reconstructs the slide from the parsed layout response,
keeping all original content and applying only the returned layout values.
A missing optional response array (`?.map(...) || existing`) keeps the
existing array. -/
def regenerateSlideLayout (existingSlide : SlideData)
    (newLayoutData : LayoutResponse) : SlideData :=
  { existingSlide with
    slideType := jsOrString newLayoutData.slideType existingSlide.slideType,
    textElements :=
      newLayoutData.textElements.map
        (mergeTextElement existingSlide.textElements),
    imageElements :=
      match newLayoutData.imageElements with
      | some l => some (l.map (mergeImageElement (existingSlide.imageElements.getD [])))
      | none => existingSlide.imageElements,
    chartElements :=
      match newLayoutData.chartElements with
      | some l => some (l.map (mergeChartElement (existingSlide.chartElements.getD [])))
      | none => existingSlide.chartElements,
    iconElements :=
      match newLayoutData.iconElements with
      | some l => some (l.map (mergeIconElement (existingSlide.iconElements.getD [])))
      | none => existingSlide.iconElements }

/-! ## Concrete sample data used by the witness theorems -/

/-- A sample text element at the spec's example geometry `(10, 10, 20, 20)`. -/
def elExampleText : SlideElement :=
  .text { id := "text_1", text := "hello", x := 10, y := 10, w := 20, h := 20,
          tailwindClasses := "text-xl text-white" }

/-- A sample image element with a different geometry. -/
def elExampleImage : SlideElement :=
  .image { id := "image_2", x := 55, y := 60, w := 25, h := 30, base64 := "AAAA" }

/-- The sample text element after a move to `(11, 12)`. -/
def uExample : SlideElement := elExampleText.setGeometry 11 12 20 20

/-- A sample slide holding the two sample elements. -/
def slideExample0 : DynSlide :=
  { id := "s0", slideType := "content", textElements := [elExampleText],
    imageElements := some [elExampleImage], chartElements := none,
    iconElements := none, speakerNotes := some "notes" }

/-- A second, unrelated sample slide. -/
def slideExample1 : DynSlide :=
  { id := "s1", slideType := "title", textElements := [], imageElements := none,
    chartElements := none, iconElements := none, speakerNotes := none }

/-- A sample two-slide deck. -/
def slidesExample : List DynSlide := [slideExample0, slideExample1]

/-- A sample App state about to insert a text element at click `(50, 50)`. -/
def addStateExample : AddElementState :=
  { slides := slidesExample, error := none, isLoading := true,
    loadingMessage := "Generating text...",
    generationPrompt :=
      { visible := false, x := 50, y := 50, type := some ElementKind.text } }

/-- The element built by `mkNewElement` for a text insertion at click
`(50, 50)` with `Date.now() = 7`. -/
def insertedExample : SlideElement :=
  .text
    { id := "text_7", text := "hi", tailwindClasses := "c",
      x := (insertPosition 50 50).1, y := (insertPosition 50 50).2,
      w := 30, h := 10 }

/-- A sample typed slide for the layout-regeneration merge. -/
def slideDataExample : SlideData :=
  { id := "slide_1", slideType := "content",
    textElements :=
      [{ id := "t1", text := "Hello", x := 5, y := 5, w := 40, h := 10,
         tailwindClasses := "text-xl" }],
    imageElements :=
      some [{ id := "i1", x := 50, y := 50, w := 25, h := 30, base64 := "IMGDATA" }],
    chartElements := none, iconElements := none, speakerNotes := some "sn" }

/-- A sample layout-regeneration response for `slideDataExample`: same ids,
new geometry and styling. -/
def layoutResponseExample : LayoutResponse :=
  { slideType := "content",
    textElements :=
      [{ id := "t1", x := 8, y := 6, w := 50, h := 12, tailwindClasses := "text-2xl" }],
    imageElements := some [{ id := "i1", x := 60, y := 40, w := 30, h := 35 }],
    chartElements := none, iconElements := none }

/-! ## Basic lemmas about the element projections -/

@[simp]
lemma setGeometry_x (el : SlideElement) (a b c d : ℚ) :
    (el.setGeometry a b c d).x = a := by
  cases el <;> rfl

@[simp]
lemma setGeometry_y (el : SlideElement) (a b c d : ℚ) :
    (el.setGeometry a b c d).y = b := by
  cases el <;> rfl

@[simp]
lemma setGeometry_w (el : SlideElement) (a b c d : ℚ) :
    (el.setGeometry a b c d).w = c := by
  cases el <;> rfl

@[simp]
lemma setGeometry_h (el : SlideElement) (a b c d : ℚ) :
    (el.setGeometry a b c d).h = d := by
  cases el <;> rfl

@[simp]
lemma setGeometry_geom (el : SlideElement) (a b c d : ℚ) :
    (el.setGeometry a b c d).geom = (a, b, c, d) := by
  cases el <;> rfl

@[simp]
lemma setGeometry_content (el : SlideElement) (a b c d : ℚ) :
    (el.setGeometry a b c d).content = el.content := by
  cases el <;> rfl

@[simp]
lemma setGeometry_id (el : SlideElement) (a b c d : ℚ) :
    (el.setGeometry a b c d).id = el.id := by
  cases el <;> rfl

/-- C1: For every starting snapshot geometry `(x0, y0, w0, h0)`, every pointer
pixel delta `(pdx, pdy)`, and every positive canvas pixel width and height, a
move (drag) application converts the pixel delta to percentage deltas
`dx = (pdx / cw) * 100`, `dy = (pdy / ch) * 100` and yields the geometry
`(x0 + dx, y0 + dy, w0, h0)`, leaving `w` and `h` unchanged. -/
theorem move_applies_percentage_delta (isRes : Bool) (d : Direction)
    (sp : StartPos) (pdx pdy cw ch : ℚ) (el : SlideElement)
    (hcw : 0 < cw) (hch : 0 < ch) :
    handleMouseMove ⟨true, isRes, d, sp⟩ (some ⟨cw, ch⟩)
        (sp.mouseX + pdx) (sp.mouseY + pdy) el
      = some (el.setGeometry (sp.x + pdx / cw * 100) (sp.y + pdy / ch * 100)
          sp.w sp.h) := by
  have hx : sp.mouseX + pdx - sp.mouseX = pdx := by ring
  have hy : sp.mouseY + pdy - sp.mouseY = pdy := by ring
  simp [handleMouseMove, hx, hy]

/-- Witness for C1 at the spec's example: a 1000 by 562 canvas, the element at
`(10, 10, 20, 20)`, a drag whose total pixel delta is `(100, 50)` (pointer from
`(300, 400)` to `(400, 450)`) ends at `x = 20`, `y = 10 + (50 / 562) * 100`,
`w = 20`, `h = 20`. -/
theorem move_applies_percentage_delta_witness :
    handleMouseMove ⟨true, false, Direction.right, ⟨10, 10, 20, 20, 300, 400⟩⟩
        (some ⟨1000, 562⟩) 400 450 elExampleText
      = some (elExampleText.setGeometry 20 (10 + 50 / 562 * 100) 20 20) := by
  have h := move_applies_percentage_delta false Direction.right
    ⟨10, 10, 20, 20, 300, 400⟩ 100 50 1000 562 elExampleText
    (by norm_num) (by norm_num)
  norm_num at h
  convert h using 2
  norm_num

/-- C2: For every starting snapshot, every percentage delta `(dx, dy)` coming
from a pixel delta, and every one of the eight resize directions, the resize
application follows the rule table: `right`: `w' = w0 + dx`; `left`:
`x' = x0 + dx`, `w' = w0 - dx`; `bottom`: `h' = h0 + dy`; `top`: `y' = y0 + dy`,
`h' = h0 - dy`; a composite direction applies each included edge's rule
independently; every component not implied by the direction equals the
snapshot, and no minimum-size clamp is applied (the equalities are exact, so
`w'` or `h'` may be negative). -/
theorem resize_rule_table (d : Direction) (sp : StartPos) (pdx pdy cw ch : ℚ)
    (el : SlideElement) (hcw : 0 < cw) (hch : 0 < ch) :
    handleMouseMove ⟨false, true, d, sp⟩ (some ⟨cw, ch⟩)
        (sp.mouseX + pdx) (sp.mouseY + pdy) el
      = some (el.setGeometry
          (if d.includesLeft then sp.x + pdx / cw * 100 else sp.x)
          (if d.includesTop then sp.y + pdy / ch * 100 else sp.y)
          (if d.includesRight then sp.w + pdx / cw * 100
            else if d.includesLeft then sp.w - pdx / cw * 100 else sp.w)
          (if d.includesBottom then sp.h + pdy / ch * 100
            else if d.includesTop then sp.h - pdy / ch * 100 else sp.h)) := by
  have hx : sp.mouseX + pdx - sp.mouseX = pdx := by ring
  have hy : sp.mouseY + pdy - sp.mouseY = pdy := by ring
  cases d <;>
    simp [handleMouseMove, Direction.includesRight, Direction.includesLeft,
      Direction.includesTop, Direction.includesBottom, hx, hy]

/-- Witness for C2: `bottom-right` with pixel delta `(50, 0)` on a
1000 by 562 canvas applied to `(10, 10, 20, 20)` yields `(10, 10, 25, 20)`
(the spec's example); and a `right` resize with pixel delta `-300` on a
1000-wide canvas drives the width of the same element to `-10`, below zero. -/
theorem resize_rule_table_witness :
    handleMouseMove ⟨false, true, Direction.bottomRight, ⟨10, 10, 20, 20, 300, 400⟩⟩
        (some ⟨1000, 562⟩) 350 400 elExampleText
      = some (elExampleText.setGeometry 10 10 25 20)
    ∧ handleMouseMove ⟨false, true, Direction.right, ⟨10, 10, 20, 20, 300, 400⟩⟩
        (some ⟨1000, 562⟩) 0 400 elExampleText
      = some (elExampleText.setGeometry 10 10 (-10) 20) := by
  constructor
  · have h := resize_rule_table Direction.bottomRight ⟨10, 10, 20, 20, 300, 400⟩
      50 0 1000 562 elExampleText (by norm_num) (by norm_num)
    norm_num [Direction.includesRight, Direction.includesLeft,
      Direction.includesTop, Direction.includesBottom] at h
    convert h using 2
  · have h := resize_rule_table Direction.right ⟨10, 10, 20, 20, 300, 400⟩
      (-300) 0 1000 562 elExampleText (by norm_num) (by norm_num)
    norm_num [Direction.includesRight, Direction.includesLeft,
      Direction.includesTop, Direction.includesBottom] at h
    convert h using 2

/-! ## The gesture output depends only on the snapshot and the cumulative
delta -/

lemma applyMoves_nil (st : GestureState) (p : Option Rect) (el : SlideElement) :
    applyMoves st p [] el = el := rfl

lemma applyMoves_cons (st : GestureState) (p : Option Rect) (c : ℚ × ℚ)
    (cs : List (ℚ × ℚ)) (el : SlideElement) :
    applyMoves st p (c :: cs) el
      = applyMoves st p cs ((handleMouseMove st p c.1 c.2 el).getD el) := rfl

/-- During an active gesture with a measurable canvas, the geometry produced
by one move event does not depend on the element the event is applied to. -/
lemma handleMouseMove_geom_eq (st : GestureState) (r : Rect) (cx cy : ℚ)
    (el el0 : SlideElement) (h : st.isDragging = true ∨ st.isResizing = true) :
    ((handleMouseMove st (some r) cx cy el).getD el).geom
      = ((handleMouseMove st (some r) cx cy el0).getD el0).geom := by
  rcases h with h | h
  · simp [handleMouseMove, h]
  · cases hd : st.isDragging <;> simp [handleMouseMove, hd, h]

/-- Folding any nonempty sequence of move events whose pixel deltas are `ds`
gives the geometry of a single move event at the cumulative delta. -/
lemma applyMoves_clientsOfDeltas_geom (st : GestureState) (r : Rect)
    (h : st.isDragging = true ∨ st.isResizing = true) :
    ∀ (ds : List (ℚ × ℚ)) (mx my : ℚ) (el el0 : SlideElement), ds ≠ [] →
      (applyMoves st (some r) (clientsOfDeltas mx my ds) el).geom
        = ((handleMouseMove st (some r) (mx + (ds.map Prod.fst).sum)
            (my + (ds.map Prod.snd).sum) el0).getD el0).geom := by
  intro ds
  induction ds with
  | nil => intro mx my el el0 hne; exact absurd rfl hne
  | cons d ds ih =>
    intro mx my el el0 _
    cases ds with
    | nil =>
        simp only [clientsOfDeltas, applyMoves_cons, applyMoves_nil,
          List.map_cons, List.map_nil, List.sum_cons, List.sum_nil, add_zero]
        exact handleMouseMove_geom_eq st r _ _ el el0 h
    | cons d2 ds2 =>
        have step := ih (mx + d.1) (my + d.2)
          ((handleMouseMove st (some r) (mx + d.1) (my + d.2) el).getD el) el0
          (by simp)
        have hx : mx + d.1 + ((d2 :: ds2).map Prod.fst).sum
            = mx + ((d :: d2 :: ds2).map Prod.fst).sum := by
          simp [add_assoc]
        have hy : my + d.2 + ((d2 :: ds2).map Prod.snd).sum
            = my + ((d :: d2 :: ds2).map Prod.snd).sum := by
          simp [add_assoc]
        rw [hx, hy] at step
        exact step

/-- C3: For every gesture, the geometry produced by any pointer-move event is
a function only of the immutable start-of-gesture snapshot, the cumulative
pixel delta since gesture start, and the canvas's current pixel dimensions:
applying `N` successive move events whose pixel deltas sum to a total `D`
yields the same final geometry as applying one single move event with delta
`D` (first conjunct), and mutating the live element's geometry externally
mid-gesture does not change the in-flight gesture's computed output (both
conjuncts hold for arbitrary, unrelated elements `el`, `el0`, `el'`). -/
theorem gesture_snapshot_determinism (st : GestureState) (r : Rect)
    (h : st.isDragging = true ∨ st.isResizing = true) :
    (∀ ds : List (ℚ × ℚ), ds ≠ [] → ∀ el el0 : SlideElement,
        (applyMoves st (some r)
            (clientsOfDeltas st.startPos.mouseX st.startPos.mouseY ds) el).geom
          = ((handleMouseMove st (some r)
              (st.startPos.mouseX + (ds.map Prod.fst).sum)
              (st.startPos.mouseY + (ds.map Prod.snd).sum) el0).getD el0).geom)
    ∧ (∀ cx cy : ℚ, ∀ el el' : SlideElement,
        ((handleMouseMove st (some r) cx cy el).getD el).geom
          = ((handleMouseMove st (some r) cx cy el').getD el').geom) :=
  ⟨fun ds hne el el0 =>
      applyMoves_clientsOfDeltas_geom st r h ds _ _ el el0 hne,
    fun cx cy el el' => handleMouseMove_geom_eq st r cx cy el el' h⟩

/-- Witness for C3: on a 1000 by 562 canvas, two successive move events with
pixel deltas `(60, 30)` and `(40, 20)` (pointer `(300, 400)` to `(360, 430)`
to `(400, 450)`) applied to one element give the same geometry as a single
move event with the cumulative delta `(100, 50)` applied to a completely
different element. -/
theorem gesture_snapshot_determinism_witness :
    (applyMoves ⟨true, false, Direction.right, ⟨10, 10, 20, 20, 300, 400⟩⟩
        (some ⟨1000, 562⟩) (clientsOfDeltas 300 400 [(60, 30), (40, 20)])
        elExampleText).geom
      = ((handleMouseMove ⟨true, false, Direction.right, ⟨10, 10, 20, 20, 300, 400⟩⟩
          (some ⟨1000, 562⟩) (300 + (60 + (40 + 0))) (400 + (30 + (20 + 0)))
          elExampleImage).getD elExampleImage).geom := by
  have h := (gesture_snapshot_determinism
    ⟨true, false, Direction.right, ⟨10, 10, 20, 20, 300, 400⟩⟩ ⟨1000, 562⟩
    (Or.inl rfl)).1 [(60, 30), (40, 20)] (by simp) elExampleText elExampleImage
  simpa using h

/-! ## Selection gating and the zero-delta round trip -/

/-- C4: For every pointer-down on an element's body, the `Idle -> Dragging`
transition is taken only if the element is already selected and editing is
enabled: a pointer-down on an unselected element (or with editing disabled)
leaves the gesture state unchanged, a state that became `Dragging` was already
dragging or had both guards true, and a full `Idle -> Dragging -> Idle`
sequence whose pixel deltas sum to zero leaves the element's geometry
identical to the pre-gesture snapshot, with both gesture flags cleared by the
pointer-up. -/
theorem drag_requires_selection (ed sel : Bool) (el : SlideElement)
    (cx cy : ℚ) (st : GestureState) :
    (sel = false → handleMouseDown ed sel el cx cy st = st)
    ∧ (ed = false → handleMouseDown ed sel el cx cy st = st)
    ∧ ((handleMouseDown ed sel el cx cy st).isDragging = true →
        st.isDragging = true ∨ (ed = true ∧ sel = true))
    ∧ (∀ (r : Rect) (ds : List (ℚ × ℚ)),
        st.isResizing = false → ds ≠ [] →
        (ds.map Prod.fst).sum = 0 → (ds.map Prod.snd).sum = 0 →
        (applyMoves (handleMouseDown true true el cx cy st) (some r)
            (clientsOfDeltas cx cy ds) el).geom = el.geom
        ∧ (handleMouseUp (handleMouseDown true true el cx cy st)).isDragging = false
        ∧ (handleMouseUp (handleMouseDown true true el cx cy st)).isResizing = false) := by
  refine ⟨?_, ?_, ?_, ?_⟩
  · intro h; simp [handleMouseDown, h]
  · intro h; simp [handleMouseDown, h]
  · intro h
    cases ed <;> cases sel <;> simp_all [handleMouseDown]
  · intro r ds hres hne hsx hsy
    have hd1 : (handleMouseDown true true el cx cy st).isDragging = true := by
      simp [handleMouseDown]
    have key := applyMoves_clientsOfDeltas_geom
      (handleMouseDown true true el cx cy st) r (Or.inl hd1) ds cx cy el el hne
    rw [hsx, hsy] at key
    refine ⟨?_, by simp [handleMouseUp], by simp [handleMouseUp]⟩
    rw [key]
    simp [handleMouseMove, handleMouseDown, SlideElement.geom]

/-- Witness for C4: a pointer-down on the unselected sample element leaves the
idle gesture state untouched, and a drag of the selected element whose two
move deltas cancel (`(30, 10)` then `(-30, -10)`) returns the element's
geometry to its pre-gesture value. -/
theorem drag_requires_selection_witness :
    handleMouseDown true false elExampleText 5 7
        ⟨false, false, Direction.right, ⟨0, 0, 0, 0, 0, 0⟩⟩
      = ⟨false, false, Direction.right, ⟨0, 0, 0, 0, 0, 0⟩⟩
    ∧ (applyMoves (handleMouseDown true true elExampleText 5 7
          ⟨false, false, Direction.right, ⟨0, 0, 0, 0, 0, 0⟩⟩)
        (some ⟨1000, 562⟩) (clientsOfDeltas 5 7 [(30, 10), (-30, -10)])
        elExampleText).geom = elExampleText.geom := by
  refine ⟨(drag_requires_selection true false elExampleText 5 7 _).1 rfl, ?_⟩
  exact ((drag_requires_selection true true elExampleText 5 7
    ⟨false, false, Direction.right, ⟨0, 0, 0, 0, 0, 0⟩⟩).2.2.2 ⟨1000, 562⟩
    [(30, 10), (-30, -10)] rfl (by simp) (by norm_num) (by norm_num)).1

/-! ## Behaviour when the canvas bounding box cannot be measured -/

/-- Counterexample for C6: the pointer-down handler does not consult the
canvas at all, so even when the canvas's bounding box is unavailable a
pointer-down on a selected, editable element does switch the gesture state to
`Dragging` — the gesture does start, contradicting the claim that it "does not
start"; the move events of that gesture are then silent no-ops. -/
theorem gesture_flag_set_without_canvas :
    (handleMouseDown true true elExampleText 5 5
        ⟨false, false, Direction.right, ⟨0, 0, 0, 0, 0, 0⟩⟩).isDragging = true
    ∧ handleMouseMove
        (handleMouseDown true true elExampleText 5 5
          ⟨false, false, Direction.right, ⟨0, 0, 0, 0, 0, 0⟩⟩)
        none 9 9 elExampleText = none := by
  exact ⟨rfl, rfl⟩

/-- C6 (amended): whenever the canvas's pixel bounding box cannot be measured,
every pointer-move is a silent no-op — no geometry update is issued (the
handler returns before calling `onUpdate`), no error is raised (the handler is
total), and the element's stored geometry is therefore unchanged.  The
pointer-down itself still flips the gesture flag (see the counterexample). -/
theorem unmeasured_canvas_never_updates (st : GestureState) (cx cy : ℚ)
    (el : SlideElement) :
    handleMouseMove st none cx cy el = none := by
  unfold handleMouseMove
  split <;> rfl

/-! ## Frame property of a geometry-update notification -/

/-- A successful move event only rewrites the geometry: the updated element
keeps every non-geometry field of the element the event was applied to. -/
lemma handleMouseMove_some_content (st : GestureState) (p : Option Rect)
    (cx cy : ℚ) (el u : SlideElement)
    (hu : handleMouseMove st p cx cy el = some u) :
    u.content = el.content ∧ u.id = el.id := by
  cases p with
  | none => simp [handleMouseMove] at hu
  | some rect =>
    by_cases hd : st.isDragging <;> by_cases hr : st.isResizing <;>
      simp [handleMouseMove, hd, hr] at hu <;> rw [← hu] <;> simp

/-- `getElem?` description of `handleElementUpdate`. -/
lemma handleElementUpdate_getElem (slides : List DynSlide) (i : Nat)
    (u : SlideElement) (j : Nat) :
    (handleElementUpdate slides i u)[j]?
      = (slides[j]?).map fun s =>
          if j ≠ i then s
          else
            { s with
              textElements := updateById u s.textElements,
              imageElements := s.imageElements.map (updateById u),
              chartElements := s.chartElements.map (updateById u),
              iconElements := s.iconElements.map (updateById u) } := by
  unfold handleElementUpdate
  rw [List.getElem?_map, List.getElem?_enum]
  cases slides[j]? <;> rfl

/-- C7: For every pointer-move during an active gesture, the geometry-update
notification replaces only the element's `x, y, w, h`: the notified element
keeps every other field (id and content payload) of the element it was
computed from; and applying the notification through `handleElementUpdate`
leaves every slide other than the active one unchanged, rewrites only the
element lists of the active slide (its id, type and speaker notes survive),
and inside a list replaces exactly the elements whose id matches, leaving all
others in place. -/
theorem geometry_update_frame (st : GestureState) (r : Rect) (cx cy : ℚ)
    (el u : SlideElement) (slides : List DynSlide) (i : Nat)
    (hu : handleMouseMove st (some r) cx cy el = some u) :
    (u.content = el.content ∧ u.id = el.id)
    ∧ (∀ j : Nat, j ≠ i → (handleElementUpdate slides i u)[j]? = slides[j]?)
    ∧ ((handleElementUpdate slides i u)[i]?
        = (slides[i]?).map fun s =>
            { s with
              textElements := updateById u s.textElements,
              imageElements := s.imageElements.map (updateById u),
              chartElements := s.chartElements.map (updateById u),
              iconElements := s.iconElements.map (updateById u) })
    ∧ (∀ (l : List SlideElement) (k : Nat) (e : SlideElement), l[k]? = some e →
        (e.id ≠ u.id → (updateById u l)[k]? = some e)
        ∧ (e.id = u.id → (updateById u l)[k]? = some u)) := by
  refine ⟨handleMouseMove_some_content st (some r) cx cy el u hu, ?_, ?_, ?_⟩
  · intro j hj
    rw [handleElementUpdate_getElem]
    cases slides[j]? <;> simp [hj]
  · rw [handleElementUpdate_getElem]
    cases slides[i]? <;> simp
  · intro l k e hk
    unfold updateById
    rw [List.getElem?_map, hk]
    constructor
    · intro hne; simp [hne]
    · intro heq; simp [heq]

/-- Witness for C7: moving the sample text element to `(11, 12)` on the sample
two-slide deck preserves its content and id, leaves the second slide and the
id-distinct image element untouched, and replaces exactly the id-matching
element. -/
theorem geometry_update_frame_witness :
    (uExample.content = elExampleText.content ∧ uExample.id = elExampleText.id)
    ∧ (handleElementUpdate slidesExample 0 uExample)[1]? = some slideExample1
    ∧ (updateById uExample [elExampleImage])[0]? = some elExampleImage
    ∧ (updateById uExample [elExampleText])[0]? = some uExample := by
  have h := geometry_update_frame ⟨true, false, Direction.right, ⟨10, 10, 20, 20, 0, 0⟩⟩
    ⟨100, 100⟩ 1 2 elExampleText uExample slidesExample 0
    (by simp [handleMouseMove, uExample, elExampleText, SlideElement.setGeometry]
        norm_num)
  refine ⟨h.1, ?_, ?_, ?_⟩
  · rw [h.2.1 1 (by decide)]; rfl
  · exact (h.2.2.2 [elExampleImage] 0 elExampleImage rfl).1 (by decide)
  · exact (h.2.2.2 [elExampleText] 0 elExampleText rfl).2 (by decide)

/-! ## Insertion: failure atomicity and placement -/

/-- C8: For every insertion flow (a kind has been chosen), if the external
content generation call fails, an error message is surfaced and no element is
added: the slide collection after the failure equals the slide collection
before the flow started, and the loading state is cleared. -/
theorem generation_failure_preserves_slides (st : AddElementState) (msg : String)
    (now : Nat) (i : Nat) (ty : ElementKind)
    (hty : st.generationPrompt.type = some ty) :
    (handleAddElement st (Except.error msg) now i).slides = st.slides
    ∧ (handleAddElement st (Except.error msg) now i).error
      = some ("Could not generate the " ++ ty.str ++ ". Please try again.")
    ∧ (handleAddElement st (Except.error msg) now i).isLoading = false
    ∧ (handleAddElement st (Except.error msg) now i).loadingMessage = "" := by
  simp [handleAddElement, hty]

/-- Witness for C8: a failed text generation on the sample state leaves the
deck untouched and surfaces the retryable error message. -/
theorem generation_failure_preserves_slides_witness :
    (handleAddElement addStateExample (Except.error "boom") 42 0).slides
      = slidesExample
    ∧ (handleAddElement addStateExample (Except.error "boom") 42 0).error
      = some "Could not generate the text. Please try again." := by
  have h := generation_failure_preserves_slides addStateExample "boom" 42 0
    ElementKind.text rfl
  exact ⟨h.1, h.2.1.trans rfl⟩

/-- All the clamping facts about the insertion position in one place. -/
lemma insertPosition_spec (cx cy : ℚ) :
    (10 ≤ cx → (insertPosition cx cy).1 = cx - 10)
    ∧ (5 ≤ cy → (insertPosition cx cy).2 = cy - 5)
    ∧ (0 ≤ cx → (insertPosition cx cy).1 ≤ cx ∧ cx - (insertPosition cx cy).1 ≤ 10)
    ∧ (0 ≤ cy → (insertPosition cx cy).2 ≤ cy ∧ cy - (insertPosition cx cy).2 ≤ 5)
    ∧ 0 ≤ (insertPosition cx cy).1 ∧ 0 ≤ (insertPosition cx cy).2
    ∧ (cx < 10 → (insertPosition cx cy).1 = 0)
    ∧ (cy < 5 → (insertPosition cx cy).2 = 0) := by
  unfold insertPosition
  refine ⟨fun h => max_eq_right (by linarith),
    fun h => max_eq_right (by linarith),
    fun h => ⟨max_le h (by linarith), ?_⟩,
    fun h => ⟨max_le h (by linarith), ?_⟩,
    le_max_left 0 _, le_max_left 0 _,
    fun h => max_eq_left (by linarith),
    fun h => max_eq_left (by linarith)⟩
  · have := le_max_right (0 : ℚ) (cx - 10); linarith
  · have := le_max_right (0 : ℚ) (cy - 5); linarith

/-- Counterexample for C5: the claim's unclamped formula
`(x, y) = (clickX - 10, clickY - 5)` fails at a click on the canvas origin:
the code clamps the position to `(0, 0)`, not `(-10, -5)` — and there the
inserted box IS pinned exactly to the click point. -/
theorem insert_offset_unclamped_fails :
    insertPosition 0 0 ≠ ((0 : ℚ) - 10, (0 : ℚ) - 5)
    ∧ insertPosition 0 0 = (0, 0) := by
  have h0 : insertPosition 0 0 = ((0 : ℚ), (0 : ℚ)) := by
    unfold insertPosition
    rw [max_eq_left (by norm_num : (0 : ℚ) - 10 ≤ 0),
      max_eq_left (by norm_num : (0 : ℚ) - 5 ≤ 0)]
  refine ⟨?_, h0⟩
  rw [h0]
  intro hcontra
  have := congrArg Prod.fst hcontra
  norm_num at this

/-- C5 (amended): for every click at percentage coordinates
`(clickX, clickY)` and every element kind, the inserted element's bounding box
has the kind-dependent default size (text `30 × 10`, image `25 × 30`, icon
`8 × 8`) and top-left `x = max 0 (clickX - 10)`, `y = max 0 (clickY - 5)` —
the fixed up-and-left shift `(10, 5)`, clamped at the canvas origin; away from
the clamp (`clickX ≥ 10`, `clickY ≥ 5`) this is exactly
`(clickX - 10, clickY - 5)`, and for in-canvas clicks the top-left stays
within a bounded offset (at most `10` horizontally, `5` vertically) of the
click point. -/
theorem insert_default_box (cx cy : ℚ) (ty : ElementKind) (payload : GenPayload)
    (now : Nat) (el : SlideElement)
    (hmk : mkNewElement ty payload (insertPosition cx cy).1
        (insertPosition cx cy).2 now = some el) :
    el.x = max 0 (cx - 10) ∧ el.y = max 0 (cy - 5)
    ∧ (ty = ElementKind.text → el.w = 30 ∧ el.h = 10)
    ∧ (ty = ElementKind.image → el.w = 25 ∧ el.h = 30)
    ∧ (ty = ElementKind.icon → el.w = 8 ∧ el.h = 8)
    ∧ (10 ≤ cx → el.x = cx - 10) ∧ (5 ≤ cy → el.y = cy - 5)
    ∧ (0 ≤ cx → el.x ≤ cx ∧ cx - el.x ≤ 10)
    ∧ (0 ≤ cy → el.y ≤ cy ∧ cy - el.y ≤ 5) := by
  have hs := insertPosition_spec cx cy
  cases ty <;> cases payload <;> simp [mkNewElement] at hmk <;> subst hmk <;>
    simp only [SlideElement.x, SlideElement.y, SlideElement.w, SlideElement.h] <;>
    refine ⟨rfl, rfl, ?_, ?_, ?_, hs.1, hs.2.1, hs.2.2.1, hs.2.2.2.1⟩ <;>
    intro hk <;> first | exact ⟨rfl, rfl⟩ | exact ⟨trivial, trivial⟩ | cases hk

/-- Witness for C5 at the spec's example: a click at `(50, 50)` inserting a
text element yields top-left `(40, 45)` with `w = 30`, `h = 10`. -/
theorem insert_default_box_witness :
    insertedExample.x = 40 ∧ insertedExample.y = 45
    ∧ insertedExample.w = 30 ∧ insertedExample.h = 10 := by
  have h := insert_default_box 50 50 ElementKind.text (GenPayload.text "hi" "c") 7
    insertedExample rfl
  refine ⟨?_, ?_, (h.2.2.1 rfl).1, (h.2.2.1 rfl).2⟩
  · rw [h.1, max_eq_right (by norm_num : (0 : ℚ) ≤ 50 - 10)]; norm_num
  · rw [h.2.1, max_eq_right (by norm_num : (0 : ℚ) ≤ 50 - 5)]; norm_num

/-- C10: For every insertion, the newly inserted element's position is clamped
to be non-negative: `insertPosition` returns
`(max 0 (clickX - 10), max 0 (clickY - 5))`, both components are `≥ 0`, and
clicks with `clickX < 10` or `clickY < 5` land on `x = 0` or `y = 0` rather
than at negative coordinates; by contrast a drag applies no clamp at all —
its output `x` is always exactly `x0 + (pixelDeltaX / canvasWidth) * 100`. -/
theorem insert_position_clamped (cx cy : ℚ) :
    insertPosition cx cy = (max 0 (cx - 10), max 0 (cy - 5))
    ∧ 0 ≤ (insertPosition cx cy).1 ∧ 0 ≤ (insertPosition cx cy).2
    ∧ (cx < 10 → (insertPosition cx cy).1 = 0)
    ∧ (cy < 5 → (insertPosition cx cy).2 = 0)
    ∧ (∀ (st : GestureState) (r : Rect) (c1 c2 : ℚ) (el : SlideElement),
        st.isDragging = true →
        ((handleMouseMove st (some r) c1 c2 el).getD el).x
          = st.startPos.x + (c1 - st.startPos.mouseX) / r.width * 100) := by
  have hs := insertPosition_spec cx cy
  refine ⟨rfl, hs.2.2.2.2.1, hs.2.2.2.2.2.1, hs.2.2.2.2.2.2.1,
    hs.2.2.2.2.2.2.2, ?_⟩
  intro st r c1 c2 el hd
  simp [handleMouseMove, hd]

/-- Witness for C10: a click at `(3, 2)` inserts at `(0, 0)`, while a drag of
the sample element far to the left ends at the unclamped `x = -40`. -/
theorem insert_position_clamped_witness :
    insertPosition 3 2 = (0, 0)
    ∧ ((handleMouseMove ⟨true, false, Direction.right, ⟨10, 10, 20, 20, 0, 0⟩⟩
        (some ⟨100, 100⟩) (-50) 0 elExampleText).getD elExampleText).x = -40 := by
  have h := insert_position_clamped 3 2
  constructor
  · have h1 := h.2.2.2.1 (by norm_num)
    have h2 := h.2.2.2.2.1 (by norm_num)
    exact Prod.ext h1 h2
  · have h3 := h.2.2.2.2.2
      ⟨true, false, Direction.right, ⟨10, 10, 20, 20, 0, 0⟩⟩ ⟨100, 100⟩
      (-50) 0 elExampleText rfl
    rw [h3]; norm_num

/-! ## Layout regeneration merges only geometry and styling -/

/-- `s || ''` is just `s`: both branches of the JS fallback give `s` back. -/
lemma jsOrString_empty (s : String) : jsOrString s "" = s := by
  unfold jsOrString
  split <;> simp_all

/-- C9: For every existing slide and every layout response, the merged slide
takes only geometry (`x, y, w, h`) and text-styling tokens from the response:
provided every response id matches an existing element (the service contract),
every text element in the result keeps the original text of the existing
element with the matching id, image elements keep their original base64
payload, the slide's id (and speaker notes) are preserved, the element ids
come through the id-keyed match, and a missing response array leaves the
existing array untouched. -/
theorem regenerate_layout_merge_preserves_content (existing : SlideData)
    (resp : LayoutResponse)
    (htext : ∀ n ∈ resp.textElements, ∃ o ∈ existing.textElements, o.id = n.id)
    (himg : ∀ l, resp.imageElements = some l →
        ∀ n ∈ l, ∃ o ∈ existing.imageElements.getD [], o.id = n.id) :
    (regenerateSlideLayout existing resp).id = existing.id
    ∧ (regenerateSlideLayout existing resp).speakerNotes = existing.speakerNotes
    ∧ (regenerateSlideLayout existing resp).textElements
      = resp.textElements.map (mergeTextElement existing.textElements)
    ∧ (∀ n ∈ resp.textElements, ∃ o,
        existing.textElements.find? (fun e => e.id = n.id) = some o
        ∧ o ∈ existing.textElements
        ∧ mergeTextElement existing.textElements n
          = { id := n.id, text := o.text, x := n.x, y := n.y, w := n.w,
              h := n.h, tailwindClasses := n.tailwindClasses })
    ∧ (∀ l, resp.imageElements = some l →
        (regenerateSlideLayout existing resp).imageElements
          = some (l.map (mergeImageElement (existing.imageElements.getD [])))
        ∧ ∀ n ∈ l, ∃ o,
            (existing.imageElements.getD []).find? (fun e => e.id = n.id) = some o
            ∧ mergeImageElement (existing.imageElements.getD []) n
              = { id := n.id, x := n.x, y := n.y, w := n.w, h := n.h,
                  base64 := o.base64 })
    ∧ (resp.imageElements = none →
        (regenerateSlideLayout existing resp).imageElements
          = existing.imageElements) := by
  refine ⟨rfl, rfl, rfl, ?_, ?_, ?_⟩
  · intro n hn
    obtain ⟨o, ho, hoid⟩ := htext n hn
    have hsome : (existing.textElements.find? (fun e => e.id = n.id)).isSome :=
      List.find?_isSome.mpr ⟨o, ho, by simp [hoid]⟩
    obtain ⟨o2, ho2⟩ := Option.isSome_iff_exists.mp hsome
    refine ⟨o2, ho2, List.mem_of_find?_eq_some ho2, ?_⟩
    unfold mergeTextElement
    rw [ho2]
    simp [jsOrString_empty]
  · intro l hl
    constructor
    · simp [regenerateSlideLayout, hl]
    · intro n hn
      obtain ⟨o, ho, hoid⟩ := himg l hl n hn
      have hsome : ((existing.imageElements.getD []).find?
          (fun e => e.id = n.id)).isSome :=
        List.find?_isSome.mpr ⟨o, ho, by simp [hoid]⟩
      obtain ⟨o2, ho2⟩ := Option.isSome_iff_exists.mp hsome
      refine ⟨o2, ho2, ?_⟩
      unfold mergeImageElement
      rw [ho2]
      simp [jsOrString_empty]
  · intro hl
    simp [regenerateSlideLayout, hl]

/-- Witness for C9: merging the sample slide with the sample response keeps
the slide id, keeps the text `"Hello"` and the image payload `"IMGDATA"`, and
adopts the response's geometry and styling. -/
theorem regenerate_layout_merge_preserves_content_witness :
    (regenerateSlideLayout slideDataExample layoutResponseExample).id = "slide_1"
    ∧ (regenerateSlideLayout slideDataExample layoutResponseExample).textElements
      = [{ id := "t1", text := "Hello", x := 8, y := 6, w := 50, h := 12,
           tailwindClasses := "text-2xl" }]
    ∧ (regenerateSlideLayout slideDataExample layoutResponseExample).imageElements
      = some [{ id := "i1", x := 60, y := 40, w := 30, h := 35,
                base64 := "IMGDATA" }] := by
  have h := regenerate_layout_merge_preserves_content slideDataExample
    layoutResponseExample (by decide)
    (by
      intro l hl
      rw [show layoutResponseExample.imageElements
          = some [({ id := "i1", x := 60, y := 40, w := 30, h := 35 } :
            GeomResponse)] from rfl] at hl
      obtain rfl : l = [({ id := "i1", x := 60, y := 40, w := 30, h := 35 } :
          GeomResponse)] := (Option.some.inj hl).symm
      decide)
  refine ⟨h.1.trans rfl, ?_, ?_⟩
  · rw [h.2.2.1]; rfl
  · rw [(h.2.2.2.2.1 _ rfl).1]; rfl

end SlidesAi
